import Mathlib

/-!
Formal model of the MathGuru topic-graph unlock/capture engine.

The definitions below are shallow embeddings of the TypeScript source:
  - `Topic`, `GALAXY_TOPICS`, `getTopicById`, `shouldUnlockTopic`,
    `KEYWORD_TOPIC_MAP`, `getTopicsFromQuery` from `src/lib/topics.ts`;
  - `PersistedProgress`, `loadProgress`, `saveProgress`, `updateProgress`,
    `getDefaultProgress`, `recordQuizResult` from `src/lib/progress-service.ts`;
  - the unlock recomputation pass and the query-driven discovery flow from the
    `Index` page component.

Modelling conventions:
  - JavaScript strings are Lean `String`s; the JS string primitives
    `toLowerCase`, `trim`, `includes`, `split` used by the matcher are embedded
    as executable char-list functions (`jsToLower`, `jsTrim`, `jsIncludes`,
    `jsSplitWhitespace`) with the same behaviour on the ASCII data involved.
  - JS objects used as maps (`Record<string, number>`) are embedded through
    their lookup semantics as `String → Option Nat`; the JS idiom `m[k] || 0`
    becomes `(m k).getD 0` (identical results, since a stored 0 and an absent
    key both yield 0 under `||`).
  - `localStorage` under the single progress key is the state `Store =
    Option PersistedProgress`, threaded explicitly; `Date.now()` is an explicit
    `now : Nat` parameter.
  - Numeric scores and counts are `Nat`; `completionRate` is `ℚ` (the division
    `length / 40 * 100` is exact rational arithmetic on the values involved).
  - Display-only `Topic` fields (`name`, `description`, `difficulty`,
    `position`, `color`) are opaque to all of the embedded logic and are
    omitted from the record.
-/

/-- A topic node of the galaxy map (`Topic` in `src/lib/types.ts`), restricted
to the fields the unlock/capture logic reads: the id, the adjacency list, and
the statically stored `captured`/`unlocked` flags. -/
structure Topic where
  id : String
  connectedTopics : List String
  captured : Bool
  unlocked : Bool
deriving Repr, DecidableEq

section
set_option maxHeartbeats 1600000

/-- The full static topic list `GALAXY_TOPICS` from `src/lib/topics.ts`
(all 81 nodes, ids and adjacency transcribed verbatim; only
`quadratic-equations` carries `unlocked: true` in the source data). -/
def GALAXY_TOPICS : List Topic := [
  ⟨"algebra-overview", ["linear-equations", "systems-of-equations", "polynomials"], false, false⟩,
  ⟨"linear-equations", ["algebra-overview", "systems-of-equations"], false, false⟩,
  ⟨"systems-of-equations", ["linear-equations", "algebra-overview", "matrices"], false, false⟩,
  ⟨"polynomials", ["algebra-overview", "rational-functions"], false, false⟩,
  ⟨"matrices", ["systems-of-equations", "algebra-overview"], false, false⟩,
  ⟨"rational-functions", ["polynomials", "algebra-overview"], false, false⟩,
  ⟨"quadratic-equations", ["quadratic-formula", "parabola-graphs", "factorization", "algebra-overview"], false, true⟩,
  ⟨"quadratic-formula", ["quadratic-equations", "discriminant", "complex-roots"], false, false⟩,
  ⟨"parabola-graphs", ["quadratic-equations", "vertex-form", "real-world-applications"], false, false⟩,
  ⟨"vertex-form", ["parabola-graphs", "completing-square"], false, false⟩,
  ⟨"completing-square", ["vertex-form", "quadratic-formula"], false, false⟩,
  ⟨"discriminant", ["quadratic-formula", "complex-roots"], false, false⟩,
  ⟨"factorization", ["quadratic-equations", "polynomials"], false, false⟩,
  ⟨"real-world-applications", ["parabola-graphs", "quadratic-equations"], false, false⟩,
  ⟨"complex-roots", ["discriminant", "quadratic-formula"], false, false⟩,
  ⟨"geometry-basics", ["triangles", "quadrilaterals", "circles"], false, false⟩,
  ⟨"triangles", ["geometry-basics", "trigonometric-functions", "area-volume"], false, false⟩,
  ⟨"quadrilaterals", ["geometry-basics", "area-volume"], false, false⟩,
  ⟨"circles", ["geometry-basics", "area-volume"], false, false⟩,
  ⟨"area-volume", ["triangles", "quadrilaterals", "circles", "coordinate-geometry"], false, false⟩,
  ⟨"coordinate-geometry", ["area-volume", "linear-equations"], false, false⟩,
  ⟨"trigonometric-functions", ["triangles", "trig-identities", "inverse-trig"], false, false⟩,
  ⟨"trig-identities", ["trigonometric-functions", "trig-equations"], false, false⟩,
  ⟨"trig-equations", ["trig-identities", "inverse-trig"], false, false⟩,
  ⟨"inverse-trig", ["trigonometric-functions", "trig-equations"], false, false⟩,
  ⟨"limits", ["functions-analysis", "derivatives"], false, false⟩,
  ⟨"functions-analysis", ["limits", "rational-functions"], false, false⟩,
  ⟨"derivatives", ["limits", "applications-derivatives", "integrals"], false, false⟩,
  ⟨"integrals", ["derivatives", "applications-integrals"], false, false⟩,
  ⟨"applications-derivatives", ["derivatives", "real-world-applications"], false, false⟩,
  ⟨"applications-integrals", ["integrals", "area-volume"], false, false⟩,
  ⟨"basic-statistics", ["probability", "data-analysis"], false, false⟩,
  ⟨"probability", ["basic-statistics", "statistics-inference"], false, false⟩,
  ⟨"data-analysis", ["basic-statistics", "regression"], false, false⟩,
  ⟨"regression", ["data-analysis", "statistics-inference"], false, false⟩,
  ⟨"statistics-inference", ["probability", "regression"], false, false⟩,
  ⟨"future-topic-1", ["future-topic-2"], false, false⟩,
  ⟨"future-topic-2", ["future-topic-1", "future-topic-3"], false, false⟩,
  ⟨"future-topic-3", ["future-topic-2"], false, false⟩,
  ⟨"future-topic-4", ["future-topic-5"], false, false⟩,
  ⟨"future-topic-5", ["future-topic-4", "future-topic-6"], false, false⟩,
  ⟨"future-topic-6", ["future-topic-5"], false, false⟩,
  ⟨"future-topic-7", ["future-topic-8"], false, false⟩,
  ⟨"future-topic-8", ["future-topic-7", "future-topic-9"], false, false⟩,
  ⟨"future-topic-9", ["future-topic-8"], false, false⟩,
  ⟨"future-topic-10", ["future-topic-11"], false, false⟩,
  ⟨"future-topic-11", ["future-topic-10", "future-topic-12"], false, false⟩,
  ⟨"future-topic-12", ["future-topic-11"], false, false⟩,
  ⟨"future-topic-13", ["future-topic-14"], false, false⟩,
  ⟨"future-topic-14", ["future-topic-13", "future-topic-15"], false, false⟩,
  ⟨"future-topic-15", ["future-topic-14"], false, false⟩,
  ⟨"future-topic-16", ["future-topic-17"], false, false⟩,
  ⟨"future-topic-17", ["future-topic-16", "future-topic-18"], false, false⟩,
  ⟨"future-topic-18", ["future-topic-17"], false, false⟩,
  ⟨"future-topic-19", ["future-topic-20"], false, false⟩,
  ⟨"future-topic-20", ["future-topic-19", "future-topic-21"], false, false⟩,
  ⟨"future-topic-21", ["future-topic-20"], false, false⟩,
  ⟨"future-topic-22", ["future-topic-23"], false, false⟩,
  ⟨"future-topic-23", ["future-topic-22", "future-topic-24"], false, false⟩,
  ⟨"future-topic-24", ["future-topic-23"], false, false⟩,
  ⟨"future-topic-25", ["future-topic-26"], false, false⟩,
  ⟨"future-topic-26", ["future-topic-25", "future-topic-27"], false, false⟩,
  ⟨"future-topic-27", ["future-topic-26"], false, false⟩,
  ⟨"future-topic-28", ["future-topic-29"], false, false⟩,
  ⟨"future-topic-29", ["future-topic-28", "future-topic-30"], false, false⟩,
  ⟨"future-topic-30", ["future-topic-29"], false, false⟩,
  ⟨"future-topic-31", ["future-topic-32"], false, false⟩,
  ⟨"future-topic-32", ["future-topic-31", "future-topic-33"], false, false⟩,
  ⟨"future-topic-33", ["future-topic-32"], false, false⟩,
  ⟨"future-topic-34", ["future-topic-35"], false, false⟩,
  ⟨"future-topic-35", ["future-topic-34", "future-topic-36"], false, false⟩,
  ⟨"future-topic-36", ["future-topic-35"], false, false⟩,
  ⟨"future-topic-37", ["future-topic-38"], false, false⟩,
  ⟨"future-topic-38", ["future-topic-37", "future-topic-39"], false, false⟩,
  ⟨"future-topic-39", ["future-topic-38"], false, false⟩,
  ⟨"future-topic-40", ["future-topic-41"], false, false⟩,
  ⟨"future-topic-41", ["future-topic-40", "future-topic-42"], false, false⟩,
  ⟨"future-topic-42", ["future-topic-41"], false, false⟩,
  ⟨"future-topic-43", ["future-topic-44"], false, false⟩,
  ⟨"future-topic-44", ["future-topic-43", "future-topic-45"], false, false⟩,
  ⟨"future-topic-45", ["future-topic-44"], false, false⟩
]

end

/-- `getTopicById` from `src/lib/topics.ts`:
`GALAXY_TOPICS.find((topic) => topic.id === id)`. -/
def getTopicById (id : String) : Option Topic :=
  GALAXY_TOPICS.find? (fun topic => topic.id == id)

/-- `shouldUnlockTopic(topicId, capturedTopics)` from `src/lib/topics.ts`:
unknown id gives `false`; a topic whose stored `unlocked` flag is set gives
`true`; otherwise `true` iff some entry of its `connectedTopics` is contained
in `capturedTopics`. -/
def shouldUnlockTopic (topicId : String) (capturedTopics : List String) : Bool :=
  match getTopicById topicId with
  | none => false
  | some topic =>
    if topic.unlocked then true
    else topic.connectedTopics.any (fun connectedId => capturedTopics.contains connectedId)

/-- The per-node unlock flag written by the recomputation pass of the `Index`
page (`Quiz.tsx` file, `Index` component unlock effect):
`shouldUnlockTopic(topic.id, capturedTopics) || unlockedTopics.includes(topic.id)`. -/
def recomputedUnlocked (topicId : String) (capturedTopics unlockedTopics : List String) : Bool :=
  shouldUnlockTopic topicId capturedTopics || unlockedTopics.contains topicId

/-- JS `String.prototype.toLowerCase` on one character (ASCII range, which is
all the keyword table and matcher logic use). -/
def jsToLowerChar (c : Char) : Char :=
  if 'A' ≤ c ∧ c ≤ 'Z' then Char.ofNat (c.toNat + 32) else c

/-- JS `query.toLowerCase()`. -/
def jsToLower (s : String) : String :=
  String.mk (s.data.map jsToLowerChar)

/-- The whitespace characters recognised by JS `trim` and the `\s`-split in
`getTopicsFromQuery` (the ASCII ones that can occur in a query). -/
def isJsWhitespace (c : Char) : Bool :=
  c == ' ' || c == '\t' || c == '\n' || c == '\r'

/-- JS `String.prototype.trim`. -/
def jsTrim (s : String) : String :=
  String.mk (((s.data.dropWhile isJsWhitespace).reverse.dropWhile isJsWhitespace).reverse)

/-- `pat` occurs as a contiguous sublist of the second argument (checked at
every suffix). -/
def containsSublist (pat : List Char) : List Char → Bool
  | [] => pat.isEmpty
  | c :: rest => pat.isPrefixOf (c :: rest) || containsSublist pat rest

/-- JS `s.includes(pat)`: `pat` occurs in `s` as a contiguous substring. -/
def jsIncludes (s pat : String) : Bool :=
  containsSublist pat.data s.data

/-- Helper for `jsSplitWhitespace`: accumulate the current (reversed) run of
non-whitespace characters and emit it at each whitespace boundary. -/
def splitWsAux : List Char → List Char → List String
  | [], acc => if acc.isEmpty then [] else [String.mk acc.reverse]
  | c :: cs, acc =>
    if isJsWhitespace c then
      if acc.isEmpty then splitWsAux cs []
      else String.mk acc.reverse :: splitWsAux cs []
    else splitWsAux cs (c :: acc)

/-- JS `s.split(/\s+/)` restricted to its maximal non-whitespace runs. The
only discrepancy with the JS call is a possible empty-string element (for an
empty or untrimmed input), which the caller in `getTopicsFromQuery`
immediately discards with its `word.length > 3` filter. -/
def jsSplitWhitespace (s : String) : List String :=
  splitWsAux s.data []

/-- The `KEYWORD_TOPIC_MAP` table from `src/lib/topics.ts`, as the ordered
entry list that `Object.entries` yields (67 entries, transcribed verbatim; no
duplicate keys occur in the source literal). -/
def KEYWORD_TOPIC_MAP : List (String × List String) := [
  ("algebra", ["algebra-overview"]),
  ("linear equation", ["linear-equations"]),
  ("system of equations", ["systems-of-equations", "matrices"]),
  ("matrix", ["matrices", "systems-of-equations"]),
  ("polynomial", ["polynomials", "rational-functions"]),
  ("rational function", ["rational-functions"]),
  ("vector", ["matrices"]),
  ("quadratic", ["quadratic-equations"]),
  ("quadratic formula", ["quadratic-formula", "quadratic-equations"]),
  ("quadratic equation", ["quadratic-equations"]),
  ("parabola", ["parabola-graphs", "quadratic-equations"]),
  ("vertex form", ["vertex-form", "parabola-graphs"]),
  ("vertex", ["vertex-form", "parabola-graphs"]),
  ("completing square", ["completing-square", "vertex-form"]),
  ("completing the square", ["completing-square", "vertex-form"]),
  ("discriminant", ["discriminant", "quadratic-formula"]),
  ("factorization", ["factorization", "quadratic-equations"]),
  ("factoring", ["factorization", "quadratic-equations"]),
  ("complex root", ["complex-roots", "discriminant"]),
  ("imaginary root", ["complex-roots", "discriminant"]),
  ("real world", ["real-world-applications", "parabola-graphs"]),
  ("geometry", ["geometry-basics"]),
  ("triangle", ["triangles", "geometry-basics"]),
  ("pythagorean", ["triangles", "geometry-basics"]),
  ("pythagorean theorem", ["triangles", "geometry-basics"]),
  ("quadrilateral", ["quadrilaterals", "geometry-basics"]),
  ("circle", ["circles", "area-volume"]),
  ("area", ["area-volume", "geometry-basics"]),
  ("volume", ["area-volume", "geometry-basics"]),
  ("coordinate geometry", ["coordinate-geometry", "area-volume"]),
  ("trigonometry", ["trigonometric-functions", "triangles"]),
  ("trig", ["trigonometric-functions", "triangles"]),
  ("sine", ["trigonometric-functions", "triangles"]),
  ("cosine", ["trigonometric-functions", "triangles"]),
  ("tangent", ["trigonometric-functions", "triangles"]),
  ("sin", ["trigonometric-functions", "triangles"]),
  ("cos", ["trigonometric-functions", "triangles"]),
  ("tan", ["trigonometric-functions", "triangles"]),
  ("trig identity", ["trig-identities", "trigonometric-functions"]),
  ("trig equation", ["trig-equations", "trig-identities"]),
  ("inverse trig", ["inverse-trig", "trigonometric-functions"]),
  ("calculus", ["limits", "functions-analysis"]),
  ("limit", ["limits", "functions-analysis"]),
  ("continuity", ["limits", "functions-analysis"]),
  ("derivative", ["derivatives", "limits"]),
  ("integral", ["integrals", "derivatives"]),
  ("integration", ["integrals", "derivatives"]),
  ("differentiation", ["derivatives", "limits"]),
  ("fundamental theorem", ["integrals", "derivatives"]),
  ("optimization", ["applications-derivatives"]),
  ("related rates", ["applications-derivatives"]),
  ("maxima", ["applications-derivatives"]),
  ("minima", ["applications-derivatives"]),
  ("area integration", ["applications-integrals"]),
  ("volume integration", ["applications-integrals"]),
  ("statistics", ["basic-statistics"]),
  ("probability", ["probability", "basic-statistics"]),
  ("mean", ["basic-statistics"]),
  ("median", ["basic-statistics"]),
  ("mode", ["basic-statistics"]),
  ("average", ["basic-statistics"]),
  ("standard deviation", ["basic-statistics"]),
  ("data analysis", ["data-analysis", "basic-statistics"]),
  ("regression", ["regression", "data-analysis"]),
  ("statistical inference", ["statistics-inference", "probability"]),
  ("hypothesis testing", ["statistics-inference"]),
  ("confidence interval", ["statistics-inference"])
]

/-- One `matchedTopicIds.add(topicId)` step of `getTopicsFromQuery`: a JS
`Set` keeps insertion order and ignores re-insertions, so the accumulator is
a duplicate-free list extended at the back. -/
def addTopicId (acc : List String) (topicId : String) : List String :=
  if acc.contains topicId then acc else acc ++ [topicId]

/-- `topicIds.forEach(topicId => matchedTopicIds.add(topicId))`. -/
def addTopicIds (acc : List String) (topicIds : List String) : List String :=
  topicIds.foldl addTopicId acc

/-- The exact-substring pass of `getTopicsFromQuery`: for each table entry in
order, if the normalized query contains the keyword as a substring, union in
its topic ids. -/
def exactMatchIds (queryWords : String) : List String :=
  KEYWORD_TOPIC_MAP.foldl
    (fun acc kv => if jsIncludes queryWords kv.1 then addTopicIds acc kv.2 else acc) []

/-- `keyword.split(' ')[0]`: the prefix of the keyword before its first
space. -/
def keywordFirstWord (keyword : String) : String :=
  String.mk (keyword.data.takeWhile (fun c => !(c == ' ')))

/-- The fallback pass of `getTopicsFromQuery` (reached only when the exact
pass matched nothing): tokens of length > 3 from the normalized query; for
each table entry and each such token, union in the entry's ids when the
keyword contains the token or the token contains the keyword's first word. -/
def fallbackMatchIds (queryWords : String) (acc0 : List String) : List String :=
  let looseTokens := (jsSplitWhitespace queryWords).filter (fun word => word.length > 3)
  KEYWORD_TOPIC_MAP.foldl
    (fun acc kv =>
      looseTokens.foldl
        (fun acc2 word =>
          if jsIncludes kv.1 word || jsIncludes word (keywordFirstWord kv.1) then
            addTopicIds acc2 kv.2
          else acc2)
        acc)
    acc0

/-- The normalization step of `getTopicsFromQuery`:
`query.toLowerCase().trim()`. -/
def normalizeQuery (query : String) : String :=
  jsTrim (jsToLower query)

/-- `getTopicsFromQuery(query)` from `src/lib/topics.ts`: normalize, run the
exact-substring pass over `KEYWORD_TOPIC_MAP`, and only when it produced zero
matches run the loose token pass over the same (still empty) accumulator;
return the accumulated ids in insertion order (`Array.from` of the set). -/
def getTopicsFromQuery (query : String) : List String :=
  let queryWords := normalizeQuery query
  let matched := exactMatchIds queryWords
  if matched.isEmpty then fallbackMatchIds queryWords matched else matched

/-- `PersistedProgress` from `src/lib/types.ts`: the single persisted progress
record. The two `Record<string, number>` maps are embedded through their
lookup semantics; `completionRate` is a JS number holding an exact rational
here. -/
structure PersistedProgress where
  capturedTopics : List String
  unlockedTopics : List String
  quizAttempts : String → Option Nat
  quizScores : String → Option Nat
  lastActivity : Nat
  completionRate : ℚ

/-- The contents of `localStorage` under the single progress key
(`math-guru-progress`): either nothing persisted yet, or one record. -/
def Store := Option PersistedProgress

/-- A `Partial<PersistedProgress>` as passed to `updateProgress`: each field
optionally present. -/
structure ProgressUpdate where
  capturedTopics : Option (List String) := none
  unlockedTopics : Option (List String) := none
  quizAttempts : Option (String → Option Nat) := none
  quizScores : Option (String → Option Nat) := none
  lastActivity : Option Nat := none
  completionRate : Option ℚ := none

/-- `loadProgress` from `src/lib/progress-service.ts`: returns the stored
record or `null`; the JSON round trip and the caught-error path both collapse
to reading the store state. -/
def loadProgress (s : Store) : Option PersistedProgress := s

/-- `saveProgress` from `src/lib/progress-service.ts`: writes the full record,
stamping `lastActivity: Date.now()` (`now` here). -/
def saveProgress (progress : PersistedProgress) (now : Nat) : Store :=
  some { progress with lastActivity := now }

/-- `getDefaultProgress` from `src/lib/progress-service.ts`: only
`quadratic-equations` unlocked, everything else empty. -/
def getDefaultProgress (now : Nat) : PersistedProgress :=
  { capturedTopics := []
    unlockedTopics := ["quadratic-equations"]
    quizAttempts := fun _ => none
    quizScores := fun _ => none
    lastActivity := now
    completionRate := 0 }

/-- The JS object spread `{ ...current, ...updates }`: each field supplied by
the update replaces the current value wholesale; absent fields keep the
current value. -/
def applyUpdates (current : PersistedProgress) (updates : ProgressUpdate) : PersistedProgress :=
  { capturedTopics := updates.capturedTopics.getD current.capturedTopics
    unlockedTopics := updates.unlockedTopics.getD current.unlockedTopics
    quizAttempts := updates.quizAttempts.getD current.quizAttempts
    quizScores := updates.quizScores.getD current.quizScores
    lastActivity := updates.lastActivity.getD current.lastActivity
    completionRate := updates.completionRate.getD current.completionRate }

/-- `updateProgress` from `src/lib/progress-service.ts`: load (or default),
field-level merge, save. -/
def updateProgress (updates : ProgressUpdate) (now : Nat) (s : Store) : Store :=
  let current := (loadProgress s).getD (getDefaultProgress now)
  saveProgress (applyUpdates current updates) now

/-- `recordQuizResult(topicId, score, passed)` from
`src/lib/progress-service.ts`: bump the attempt count, keep the best score,
append the topic to `capturedTopics` when passed and not already present, and
recompute `completionRate` against the hardcoded `totalTopics = 40`. The JS
`m[k] || 0` reads become `getD 0`. -/
def recordQuizResult (topicId : String) (score : Nat) (passed : Bool) (now : Nat)
    (s : Store) : Store :=
  let progress := (loadProgress s).getD (getDefaultProgress now)
  let attempts := (progress.quizAttempts topicId).getD 0 + 1
  let currentScore := (progress.quizScores topicId).getD 0
  let newScore := max currentScore score
  let capturedTopics :=
    if passed && !(progress.capturedTopics.contains topicId) then
      progress.capturedTopics ++ [topicId]
    else progress.capturedTopics
  let totalTopics : ℚ := 40
  let completionRate := ((capturedTopics.length : ℚ) / totalTopics) * 100
  updateProgress
    { capturedTopics := some capturedTopics
      quizAttempts := some (fun k => if k == topicId then some attempts else progress.quizAttempts k)
      quizScores := some (fun k => if k == topicId then some newScore else progress.quizScores k)
      completionRate := some completionRate }
    now s

/-- The record the system works from at store state `s`: the stored record, or
the documented default when nothing is persisted (the `loadProgress() ||
getDefaultProgress()` idiom). The `now` stamp of the substituted default is
immaterial to every property below. -/
def loadedRecord (s : Store) : PersistedProgress :=
  (loadProgress s).getD (getDefaultProgress 0)

/-- `[...new Set(xs)]`: deduplicate, keeping first occurrences in order. -/
def jsSetOfList (xs : List String) : List String :=
  xs.foldl addTopicId []

/-- The query-driven discovery flow of the `Index` page (`handleQuerySubmit`
in the `Quiz.tsx` file, together with the persistence effect that writes
`{ capturedTopics, unlockedTopics }` through `updateProgress`): match the
trimmed query, keep the matched ids not already unlocked or captured, and
persist `[...new Set([...prev, ...newlyUnlockable])]` as the new
`unlockedTopics`. -/
def discoverTopics (query : String) (now : Nat) (s : Store) : Store :=
  let progress := loadedRecord s
  let topicIds := getTopicsFromQuery (jsTrim query)
  let newlyUnlockable := topicIds.filter (fun topicId =>
    !(progress.unlockedTopics.contains topicId) && !(progress.capturedTopics.contains topicId))
  let newUnlocked := jsSetOfList (progress.unlockedTopics ++ newlyUnlockable)
  updateProgress
    { capturedTopics := some progress.capturedTopics
      unlockedTopics := some newUnlocked }
    now s

/-- The public operations on the persisted progress record that the claims
quantify over: a quiz result and a keyword-discovery event. -/
inductive ProgressOp where
  | quiz (topicId : String) (score : Nat) (passed : Bool) (now : Nat)
  | discover (query : String) (now : Nat)

/-- Apply one public operation to the store. -/
def applyOp : ProgressOp → Store → Store
  | .quiz topicId score passed now, s => recordQuizResult topicId score passed now s
  | .discover query now, s => discoverTopics query now s

/-- Run a sequence of public operations left to right. -/
def runOps : List ProgressOp → Store → Store
  | [], s => s
  | op :: rest, s => runOps rest (applyOp op s)

/-- Run a sequence of `recordQuizResult` calls, each given as
`(topicId, score, passed, now)`. -/
def runQuizCalls : List (String × Nat × Bool × Nat) → Store → Store
  | [], s => s
  | (topicId, score, passed, now) :: rest, s =>
    runQuizCalls rest (recordQuizResult topicId score passed now s)

/-- Run a sequence of `recordQuizResult` calls all aimed at the same topic,
each given as `(score, passed, now)`. -/
def runSameTopic (topicId : String) : List (Nat × Bool × Nat) → Store → Store
  | [], s => s
  | (score, passed, now) :: rest, s =>
    runSameTopic topicId rest (recordQuizResult topicId score passed now s)

/-- The id of the designated root topic: the unique node of `GALAXY_TOPICS`
whose stored `unlocked` flag is `true`, and the single entry of the default
record's `unlockedTopics`. -/
def rootTopicId : String := "quadratic-equations"

/-- The capture/unlock containment invariant of the spec:
`capturedTopics ⊆ unlockedTopics ∪ {always-unlocked root}`. -/
def CapturedWithinUnlocked (p : PersistedProgress) : Prop :=
  ∀ t ∈ p.capturedTopics, t ∈ p.unlockedTopics ∨ t = rootTopicId

/-- The caller-side discipline under which the containment invariant is
preserved: a passed quiz is only recorded for a topic that is currently
unlocked (or is the root). Discovery events need no side condition. -/
def opGuard (op : ProgressOp) (s : Store) : Prop :=
  match op with
  | .quiz topicId _ passed _ =>
    passed = true → topicId ∈ (loadedRecord s).unlockedTopics ∨ topicId = rootTopicId
  | .discover _ _ => True

/-- `opGuard` holding at every step of a sequence of operations. -/
def GuardedOps : List ProgressOp → Store → Prop
  | [], _ => True
  | op :: rest, s => opGuard op s ∧ GuardedOps rest (applyOp op s)

/-- A concrete stored record with `algebra-overview` explicitly unlocked and
nothing captured. -/
def progressWithUnlockedAlgebra : PersistedProgress :=
  { capturedTopics := []
    unlockedTopics := ["algebra-overview"]
    quizAttempts := fun _ => none
    quizScores := fun _ => none
    lastActivity := 0
    completionRate := 0 }

/-- A concrete stored record with `algebra-overview` captured. -/
def progressWithCapturedAlgebra : PersistedProgress :=
  { capturedTopics := ["algebra-overview"]
    unlockedTopics := ["quadratic-equations"]
    quizAttempts := fun _ => none
    quizScores := fun _ => none
    lastActivity := 0
    completionRate := 5 / 2 }

/-! ## Helper lemmas -/

theorem mem_addTopicId {t z : String} {acc : List String} :
    t ∈ addTopicId acc z ↔ t ∈ acc ∨ t = z := by
  unfold addTopicId
  split
  case isTrue h =>
    constructor
    · exact Or.inl
    · rintro (ht | rfl)
      · exact ht
      · exact List.mem_of_elem_eq_true h
  case isFalse h =>
    simp [List.mem_append]

theorem mem_foldl_addTopicId {t : String} :
    ∀ (zs acc : List String), t ∈ zs.foldl addTopicId acc ↔ t ∈ acc ∨ t ∈ zs := by
  intro zs
  induction zs with
  | nil => simp
  | cons z zs ih =>
    intro acc
    rw [List.foldl_cons, ih, mem_addTopicId]
    constructor
    · rintro ((h | rfl) | h)
      · exact Or.inl h
      · exact Or.inr (List.mem_cons_self _ _)
      · exact Or.inr (List.mem_cons_of_mem _ h)
    · rintro (h | h)
      · exact Or.inl (Or.inl h)
      · rcases List.mem_cons.mp h with rfl | h
        · exact Or.inl (Or.inr rfl)
        · exact Or.inr h

theorem mem_jsSetOfList {t : String} {zs : List String} :
    t ∈ jsSetOfList zs ↔ t ∈ zs := by
  unfold jsSetOfList
  rw [mem_foldl_addTopicId]
  simp

theorem recordQuizResult_captured (topicId : String) (score : Nat) (passed : Bool)
    (now : Nat) (s : Store) :
    (loadedRecord (recordQuizResult topicId score passed now s)).capturedTopics =
      if passed && !((loadedRecord s).capturedTopics.contains topicId) then
        (loadedRecord s).capturedTopics ++ [topicId]
      else (loadedRecord s).capturedTopics := by
  cases s <;> rfl

theorem recordQuizResult_unlocked (topicId : String) (score : Nat) (passed : Bool)
    (now : Nat) (s : Store) :
    (loadedRecord (recordQuizResult topicId score passed now s)).unlockedTopics =
      (loadedRecord s).unlockedTopics := by
  cases s <;> rfl

theorem recordQuizResult_attempts_lookup (topicId : String) (score : Nat) (passed : Bool)
    (now : Nat) (s : Store) :
    (loadedRecord (recordQuizResult topicId score passed now s)).quizAttempts topicId =
      some (((loadedRecord s).quizAttempts topicId).getD 0 + 1) := by
  cases s <;>
    simp [recordQuizResult, updateProgress, saveProgress, applyUpdates, loadedRecord,
      loadProgress, getDefaultProgress]

theorem recordQuizResult_scores_lookup (topicId : String) (score : Nat) (passed : Bool)
    (now : Nat) (s : Store) :
    (loadedRecord (recordQuizResult topicId score passed now s)).quizScores topicId =
      some (max (((loadedRecord s).quizScores topicId).getD 0) score) := by
  cases s <;>
    simp [recordQuizResult, updateProgress, saveProgress, applyUpdates, loadedRecord,
      loadProgress, getDefaultProgress]

theorem discoverTopics_captured (query : String) (now : Nat) (s : Store) :
    (loadedRecord (discoverTopics query now s)).capturedTopics =
      (loadedRecord s).capturedTopics := by
  cases s <;> rfl

theorem discoverTopics_unlocked (query : String) (now : Nat) (s : Store) :
    (loadedRecord (discoverTopics query now s)).unlockedTopics =
      jsSetOfList ((loadedRecord s).unlockedTopics ++
        (getTopicsFromQuery (jsTrim query)).filter (fun topicId =>
          !((loadedRecord s).unlockedTopics.contains topicId) &&
          !((loadedRecord s).capturedTopics.contains topicId))) := by
  cases s <;> rfl

/-! ## Claim theorems -/

/-- C4: for every topic `A` present in the store and every captured-topic set,
if some id listed in `A`'s own `connectedTopics` is captured, then
`shouldUnlockTopic` returns `true` for `A`. The check reads only
`A`'s adjacency list (no back edge from the neighbor is consulted) and no
explicit-unlock state at all, so it holds however the rest of the progress
record looks. -/
theorem shouldUnlockTopic_of_connected_captured (topicId : String) (topic : Topic)
    (captured : List String) (hFind : getTopicById topicId = some topic)
    (hConn : ∃ cid ∈ topic.connectedTopics, cid ∈ captured) :
    shouldUnlockTopic topicId captured = true := by
  unfold shouldUnlockTopic
  rw [hFind]
  obtain ⟨cid, hmem, hcap⟩ := hConn
  by_cases hu : topic.unlocked
  · simp [hu]
  · have hany : topic.connectedTopics.any (fun connectedId => captured.contains connectedId) = true :=
      List.any_eq_true.mpr ⟨cid, hmem, List.elem_eq_true_of_mem hcap⟩
    simp only [hu, if_false, hany]
    rfl

/-- Witness for C4: `parabola-graphs` lists `quadratic-equations` among its
connections, so capturing `quadratic-equations` unlocks it (note
`quadratic-equations` is found by `getTopicById` and the check needs no
explicit-unlock entry). -/
theorem shouldUnlockTopic_of_connected_captured_witness :
    shouldUnlockTopic "parabola-graphs" ["quadratic-equations"] = true :=
  shouldUnlockTopic_of_connected_captured "parabola-graphs"
    ⟨"parabola-graphs", ["quadratic-equations", "vertex-form", "real-world-applications"],
      false, false⟩
    ["quadratic-equations"] (by decide)
    ⟨"quadratic-equations", by decide⟩

/-- C8: an unknown topic id (one `getTopicById` does not resolve) makes
`shouldUnlockTopic` return `false` for every captured-topic set; the lookup
miss is absorbed by the early `return false`, never thrown (the embedding is
a total function). -/
theorem shouldUnlockTopic_unknown_id_false (topicId : String) (captured : List String)
    (h : getTopicById topicId = none) :
    shouldUnlockTopic topicId captured = false := by
  unfold shouldUnlockTopic
  rw [h]

/-- Witness for C8: `pythagoras-theorem` is not an id of any `GALAXY_TOPICS`
node. -/
theorem shouldUnlockTopic_unknown_id_false_witness :
    shouldUnlockTopic "pythagoras-theorem" ["quadratic-equations"] = false :=
  shouldUnlockTopic_unknown_id_false "pythagoras-theorem" ["quadratic-equations"] (by decide)

/-- C9: `getTopicsFromQuery` factors through its normalization step
`query.toLowerCase().trim()`: any two queries with the same normal form give
the same result list. Together with the function being a pure function of the
query string alone (it reads only the static keyword table), this is the
matcher's determinism and case/whitespace insensitivity. -/
theorem getTopicsFromQuery_normalization_invariant (q1 q2 : String)
    (h : normalizeQuery q1 = normalizeQuery q2) :
    getTopicsFromQuery q1 = getTopicsFromQuery q2 := by
  unfold getTopicsFromQuery
  rw [h]

/-- Witness for C9: the spec's concrete instance, `"  QUADRATIC Formula "`
versus `"quadratic formula"`, with the common value computed explicitly. -/
theorem getTopicsFromQuery_normalization_invariant_witness :
    getTopicsFromQuery "  QUADRATIC Formula " = getTopicsFromQuery "quadratic formula" ∧
    getTopicsFromQuery "quadratic formula" = ["quadratic-equations", "quadratic-formula"] :=
  ⟨getTopicsFromQuery_normalization_invariant "  QUADRATIC Formula " "quadratic formula"
      (by decide),
    by decide⟩

/-- C7: whenever the exact-substring pass over `KEYWORD_TOPIC_MAP` produces at
least one topic id, `getTopicsFromQuery` returns exactly that pass's result:
the loose token fallback contributes nothing (it is gated on the exact pass
having produced zero matches). -/
theorem getTopicsFromQuery_fallback_only_on_empty (query : String)
    (h : exactMatchIds (normalizeQuery query) ≠ []) :
    getTopicsFromQuery query = exactMatchIds (normalizeQuery query) := by
  unfold getTopicsFromQuery
  simp only [List.isEmpty_iff]
  rw [if_neg h]

section
set_option maxRecDepth 20000

/-- Witness for C7: for `"quadratic equation"` the exact pass matches (so the
result equals it), and `linear-equations` — an id the fallback pass would
union in through the token `equation`, since `"linear equation"` contains it —
is absent from the result. -/
theorem getTopicsFromQuery_fallback_only_on_empty_witness :
    exactMatchIds (normalizeQuery "quadratic equation") ≠ [] ∧
    getTopicsFromQuery "quadratic equation" = exactMatchIds (normalizeQuery "quadratic equation") ∧
    "linear-equations" ∈ fallbackMatchIds (normalizeQuery "quadratic equation") [] ∧
    "linear-equations" ∉ getTopicsFromQuery "quadratic equation" :=
  ⟨by decide,
    getTopicsFromQuery_fallback_only_on_empty "quadratic equation" (by decide),
    by decide, by decide⟩

end

/-- C10 (frame property): `recordQuizResult` never changes `unlockedTopics`:
its update omits that field, and the field-level merge of `updateProgress`
then keeps the prior value, whatever the starting record and arguments. -/
theorem recordQuizResult_preserves_unlockedTopics (topicId : String) (score : Nat)
    (passed : Bool) (now : Nat) (p : PersistedProgress) :
    (loadedRecord (recordQuizResult topicId score passed now (some p))).unlockedTopics =
      p.unlockedTopics := rfl

/-- Counterexample for C1: with `algebra-overview` explicitly present in
`unlockedTopics` and nothing captured, `shouldUnlockTopic` still returns
`false` — the function never consults the record's `unlockedTopics` (it reads
only the topic's static `unlocked` flag, which is set solely for the root
`quadratic-equations` in `GALAXY_TOPICS`). -/
theorem shouldUnlockTopic_ignores_unlockedTopics_cex :
    "algebra-overview" ∈ progressWithUnlockedAlgebra.unlockedTopics ∧
    shouldUnlockTopic "algebra-overview" progressWithUnlockedAlgebra.capturedTopics = false := by
  constructor
  · decide
  · decide

/-- C1 as amended: membership in `unlockedTopics` is honoured not by
`shouldUnlockTopic` but by the recomputation pass of the `Index` page, whose
displayed flag `shouldUnlockTopic(id, captured) || unlockedTopics.includes(id)`
is `true` for every topic id in `unlockedTopics`, regardless of which topics
are captured. -/
theorem recomputedUnlocked_of_mem_unlockedTopics (topicId : String)
    (captured unlocked : List String) (h : topicId ∈ unlocked) :
    recomputedUnlocked topicId captured unlocked = true := by
  unfold recomputedUnlocked
  rw [Bool.or_eq_true]
  exact Or.inr (List.elem_eq_true_of_mem h)

/-- Witness for the amended C1: `algebra-overview`, explicitly unlocked and
uncaptured, is reported unlocked by the recomputation pass. -/
theorem recomputedUnlocked_of_mem_unlockedTopics_witness :
    recomputedUnlocked "algebra-overview" progressWithUnlockedAlgebra.capturedTopics
      progressWithUnlockedAlgebra.unlockedTopics = true :=
  recomputedUnlocked_of_mem_unlockedTopics "algebra-overview"
    progressWithUnlockedAlgebra.capturedTopics progressWithUnlockedAlgebra.unlockedTopics
    (by decide)

/-- Counterexample for C2: after a first passed quiz recorded from a fresh
store, the persisted `completionRate` is `1 / 40 * 100 = 5/2`, which differs
from `|capturedTopics| / |GALAXY_TOPICS| * 100 = 1 / 81 * 100`: the code
divides by the hardcoded constant 40, not by the 81-element topic list of the
Topic Graph Store. -/
theorem completionRate_not_live_total_cex :
    (loadedRecord (recordQuizResult "quadratic-equations" 80 true 0 none)).completionRate =
      5 / 2 ∧
    ((loadedRecord (recordQuizResult "quadratic-equations" 80 true 0 none)).capturedTopics.length : ℚ)
        / (GALAXY_TOPICS.length : ℚ) * 100 = 100 / 81 ∧
    (5 / 2 : ℚ) ≠ 100 / 81 := by
  refine ⟨by norm_num [loadedRecord, recordQuizResult, updateProgress, saveProgress,
    applyUpdates, loadProgress, getDefaultProgress], ?_, by norm_num⟩
  norm_num [loadedRecord, recordQuizResult, updateProgress, saveProgress,
    applyUpdates, loadProgress, getDefaultProgress, GALAXY_TOPICS]

/-- C2 as amended: after every `recordQuizResult` call the persisted
`completionRate` equals `|capturedTopics| / 40 * 100` — consistent with the
stored `capturedTopics` set, but computed against the hardcoded
`totalTopics = 40` rather than the live topic count. -/
theorem recordQuizResult_completionRate_hardcoded40 (s : Store) (topicId : String)
    (score : Nat) (passed : Bool) (now : Nat) :
    ∃ p2, recordQuizResult topicId score passed now s = some p2 ∧
      p2.completionRate = (p2.capturedTopics.length : ℚ) / 40 * 100 := by
  cases s <;> exact ⟨_, rfl, rfl⟩

/-- Counterexample for C3: a single `recordQuizResult` call for a locked,
non-root topic (from the fresh default state) yields a record whose
`capturedTopics` contains `algebra-overview`, which is neither the root nor in
`unlockedTopics` — the operations themselves do not enforce the containment
invariant. -/
theorem captured_subset_unlocked_cex :
    "algebra-overview" ∈
      (loadedRecord (recordQuizResult "algebra-overview" 80 true 0 none)).capturedTopics ∧
    "algebra-overview" ∉
      (loadedRecord (recordQuizResult "algebra-overview" 80 true 0 none)).unlockedTopics ∧
    "algebra-overview" ≠ rootTopicId := by
  refine ⟨by decide, by decide, by decide⟩

/-- C3 as amended: the invariant `capturedTopics ⊆ unlockedTopics ∪ {root}` is
preserved by every sequence of quiz and discovery operations *provided* each
passed quiz targets a topic that is unlocked (or the root) at the time of the
call — the discipline the UI observes; an unguarded `recordQuizResult` can
violate it (see the counterexample). -/
theorem guarded_ops_preserve_captured_subset_unlocked (ops : List ProgressOp) (s : Store)
    (hInv : CapturedWithinUnlocked (loadedRecord s)) (hG : GuardedOps ops s) :
    CapturedWithinUnlocked (loadedRecord (runOps ops s)) := by
  induction ops generalizing s with
  | nil => exact hInv
  | cons op rest ih =>
    obtain ⟨hGuard, hRest⟩ := hG
    refine ih (applyOp op s) ?_ hRest
    cases op with
    | quiz topicId score passed now =>
      intro t ht
      rw [applyOp, recordQuizResult_captured] at ht
      rw [applyOp, recordQuizResult_unlocked]
      by_cases hc : passed && !((loadedRecord s).capturedTopics.contains topicId)
      · rw [if_pos hc] at ht
        rcases List.mem_append.mp ht with h | h
        · exact hInv t h
        · rw [List.mem_singleton] at h
          subst h
          have hpass : passed = true := by
            rcases passed with _ | _
            · simp at hc
            · rfl
          exact hGuard hpass
      · rw [if_neg hc] at ht
        exact hInv t ht
    | discover query now =>
      intro t ht
      rw [applyOp, discoverTopics_captured] at ht
      rw [applyOp, discoverTopics_unlocked]
      rcases hInv t ht with h | h
      · exact Or.inl (mem_jsSetOfList.mpr (List.mem_append_left _ h))
      · exact Or.inr h

/-- Witness for the amended C3: from the fresh default state, one guarded
passed quiz on the root followed by a discovery query keeps the containment
invariant. -/
theorem guarded_ops_preserve_captured_subset_unlocked_witness :
    CapturedWithinUnlocked (loadedRecord (runOps
      [ProgressOp.quiz "quadratic-equations" 80 true 0,
       ProgressOp.discover "teach me the quadratic formula" 1] none)) :=
  guarded_ops_preserve_captured_subset_unlocked
    [ProgressOp.quiz "quadratic-equations" 80 true 0,
     ProgressOp.discover "teach me the quadratic formula" 1] none
    (fun t ht => absurd ht (List.not_mem_nil t))
    ⟨fun _ => Or.inr rfl, trivial, trivial⟩

/-- C5: capture is monotone — a topic present in `capturedTopics` remains
present after any further sequence of `recordQuizResult` calls, whatever their
topics, scores and passed flags. -/
theorem capture_monotone_runQuizCalls (T : String) (s : Store)
    (hT : T ∈ (loadedRecord s).capturedTopics)
    (calls : List (String × Nat × Bool × Nat)) :
    T ∈ (loadedRecord (runQuizCalls calls s)).capturedTopics := by
  induction calls generalizing s with
  | nil => exact hT
  | cons c rest ih =>
    obtain ⟨topicId, score, passed, now⟩ := c
    rw [runQuizCalls]
    refine ih _ ?_
    rw [recordQuizResult_captured]
    by_cases hc : passed && !((loadedRecord s).capturedTopics.contains topicId)
    · rw [if_pos hc]
      exact List.mem_append_left _ hT
    · rw [if_neg hc]
      exact hT

/-- Witness for C5: `algebra-overview`, already captured in the stored record,
survives a failed low-score retry on itself and an unrelated passed quiz. -/
theorem capture_monotone_runQuizCalls_witness :
    "algebra-overview" ∈ (loadedRecord (runQuizCalls
      [("algebra-overview", 10, false, 5), ("triangles", 90, true, 6)]
      (some progressWithCapturedAlgebra))).capturedTopics :=
  capture_monotone_runQuizCalls "algebra-overview" (some progressWithCapturedAlgebra)
    (by decide)
    [("algebra-overview", 10, false, 5), ("triangles", 90, true, 6)]

/-- Attempt counts accumulate across same-topic calls: running further
same-topic quiz results adds exactly their number to the (defaulted) attempt
count. -/
theorem runSameTopic_attempts_getD (topicId : String) (results : List (Nat × Bool × Nat)) :
    ∀ s : Store, ((loadedRecord (runSameTopic topicId results s)).quizAttempts topicId).getD 0 =
      ((loadedRecord s).quizAttempts topicId).getD 0 + results.length := by
  induction results with
  | nil => intro s; simp [runSameTopic]
  | cons r rest ih =>
    obtain ⟨score, passed, now⟩ := r
    intro s
    rw [runSameTopic, ih, recordQuizResult_attempts_lookup]
    simp only [Option.getD_some, List.length_cons]
    omega

/-- C6: each `recordQuizResult` call sets `quizAttempts[topicId]` to the prior
count (0 if absent) plus one and `quizScores[topicId]` to the max of the prior
best (0 if absent) and the new score; therefore the best score never
decreases, and N same-topic calls starting from an absent entry leave the
attempt count at exactly N. -/
theorem recordQuizResult_attempts_scores_spec (topicId : String) (score : Nat)
    (passed : Bool) (now : Nat) (s : Store) (results : List (Nat × Bool × Nat)) :
    ((loadedRecord (recordQuizResult topicId score passed now s)).quizAttempts topicId =
      some (((loadedRecord s).quizAttempts topicId).getD 0 + 1)) ∧
    ((loadedRecord (recordQuizResult topicId score passed now s)).quizScores topicId =
      some (max (((loadedRecord s).quizScores topicId).getD 0) score)) ∧
    (((loadedRecord s).quizScores topicId).getD 0 ≤
      ((loadedRecord (recordQuizResult topicId score passed now s)).quizScores topicId).getD 0) ∧
    ((loadedRecord s).quizAttempts topicId = none →
      ((loadedRecord (runSameTopic topicId results s)).quizAttempts topicId).getD 0 =
        results.length) := by
  refine ⟨recordQuizResult_attempts_lookup topicId score passed now s,
    recordQuizResult_scores_lookup topicId score passed now s, ?_, ?_⟩
  · rw [recordQuizResult_scores_lookup]
    simp only [Option.getD_some]
    exact le_max_left _ _
  · intro h
    rw [runSameTopic_attempts_getD, h]
    simp

/-- Witness for C6: two same-topic calls on `triangles` from the fresh store
(where the entry is absent) leave the attempt count at exactly 2. -/
theorem recordQuizResult_attempts_scores_spec_witness :
    ((loadedRecord (runSameTopic "triangles" [(50, false, 1), (70, true, 2)]
      none)).quizAttempts "triangles").getD 0 = 2 :=
  (recordQuizResult_attempts_scores_spec "triangles" 50 false 1 none
    [(50, false, 1), (70, true, 2)]).2.2.2 rfl
